import Mathlib

/-!
Shallow embedding of the NSEMS time-windowed QR-token protocol and its
offline-first verification/synchronization engine.

Embedded source files:
- `Server/controllers/scannerController.js` (`validateQR`, `syncLogs`)
- `Client/src/services/offlineService.js` (`OfflineService.generateSecureToken`,
  `validateQROffline`, `storeStudentData`, `syncAllStudents`)
- `Client/src/services/syncService.js` (`triggerSync`)
- `Client/src/middleware/authMiddleware.js` (`generateQR`)
- `Client/src/pages/AdminDashboard.jsx` (`handleQRScan` warm-cache write)

Strings are modelled as `List Char`.  JavaScript `String.prototype.trim`,
`String.prototype.split('|')`, `parseInt(s, 10)` and number-to-string
conversion are given executable models.  The HMAC-SHA256 primitive is an
external library call (`node:crypto` / WebCrypto), not code of this
repository, so the development is parametrised by an arbitrary MAC function
`Mac : Str → Str → Str`; both the client and the server invoke the same
primitive, and the theorems quantify over it.
-/

set_option autoImplicit false
set_option maxHeartbeats 1000000

namespace NSEMS

/-- Strings are modelled as lists of characters. -/
abbrev Str := List Char

/-- Whitespace characters removed by JavaScript `trim` and skipped by
`parseInt` (the common ASCII ones: space, tab, LF, CR, VT, FF). -/
def isJsWhitespace (c : Char) : Bool :=
  c = ' ' || c = '\t' || c = '\n' || c = '\r' || c = '\x0b' || c = '\x0c'

/-- Model of JavaScript `s.trim()`: drop whitespace from both ends. -/
def jsTrim (s : Str) : Str :=
  ((s.dropWhile isJsWhitespace).reverse.dropWhile isJsWhitespace).reverse

/-- Model of JavaScript `s.split('|')`.  `"".split('|') = [""]`,
`"a|".split('|') = ["a", ""]`, etc. -/
def splitBar : Str → List Str
  | [] => [[]]
  | c :: rest =>
      let r := splitBar rest
      if c = '|' then [] :: r
      else (c :: r.headD []) :: r.tail

/-- ASCII decimal digit test (the digits recognised by `parseInt(·, 10)`). -/
def isDigitChar (c : Char) : Bool :=
  48 ≤ c.toNat && c.toNat ≤ 57

/-- Numeric value of an ASCII digit character. -/
def digitVal (c : Char) : Nat := c.toNat - 48

/-- Value of a string of ASCII digits, most significant first. -/
def natOfDigits (ds : Str) : Nat :=
  ds.foldl (fun a c => a * 10 + digitVal c) 0

/-- Longest digit run at the front of the string; `none` when there is no
digit there (the `NaN` case of `parseInt`). -/
def leadingDigits (s : Str) : Option Nat :=
  let ds := s.takeWhile isDigitChar
  if ds.isEmpty then none else some (natOfDigits ds)

/-- Model of JavaScript `parseInt(s, 10)`: skip leading whitespace, accept an
optional sign, then read the longest digit run; `none` models `NaN`. -/
def jsParseInt (s : Str) : Option Int :=
  let s1 := s.dropWhile isJsWhitespace
  match s1 with
  | [] => none
  | c :: rest =>
      if c = '-' then (leadingDigits rest).map (fun n => -(n : Int))
      else if c = '+' then (leadingDigits rest).map (fun n => (n : Int))
      else (leadingDigits (c :: rest)).map (fun n => (n : Int))

/-- A JavaScript number that is either an integer or `NaN` (the values the
`timeWindow` variable can take after `parseInt`). -/
inductive JSNum where
  | num (i : Int)
  | nan
  deriving DecidableEq

/-- The parsed time window: `parseInt` result as a `JSNum`. -/
def jsParseIntNum (s : Str) : JSNum :=
  match jsParseInt s with
  | some i => .num i
  | none => .nan

/-- ASCII digit character for a value below ten. -/
def digitChar (d : Nat) : Char := Char.ofNat (48 + d)

/-- Decimal digits of a natural number; structural recursion on fuel so that
the definition reduces in the kernel.  `natToDigits` supplies enough fuel. -/
def natToDigitsAux : Nat → Nat → Str
  | 0, _ => []
  | fuel + 1, n =>
      if n < 10 then [digitChar n]
      else natToDigitsAux fuel (n / 10) ++ [digitChar (n % 10)]

/-- Decimal numeral of a natural number (the JavaScript rendering of a
non-negative integer in a template literal). -/
def natToDigits (n : Nat) : Str := natToDigitsAux (n + 1) n

/-- JavaScript number-to-string for the values a parsed time window can take:
an integer renders in decimal (with a leading minus sign when negative) and
`NaN` renders as the three characters `NaN`. -/
def numToStr : JSNum → Str
  | .num i => if i < 0 then '-' :: natToDigits i.natAbs else natToDigits i.toNat
  | .nan => ("NaN").toList

/-! ## Token Service: MAC primitive and derivation

The HMAC-SHA256 primitive lives in `node:crypto` (server) and WebCrypto
(client); both sides call the same external function.  It is modelled as a
parameter `mac : Mac` with `mac key message` the lowercase-hex digest. -/

/-- An abstract keyed MAC returning a hex digest: `mac key message`. -/
abbrev Mac := Str → Str → Str

/-- Lowercase hexadecimal digit. -/
def isLowerHexDigit (c : Char) : Bool :=
  isDigitChar c || (97 ≤ c.toNat && c.toNat ≤ 102)

/-- A well-formed HMAC-SHA256 hex digest: 64 lowercase hex characters.
Every output of the real primitive satisfies this. -/
def isHexSig (s : Str) : Prop :=
  s.length = 64 ∧ ∀ c ∈ s, isLowerHexDigit c = true

/-- Message the client MACs in `OfflineService.generateSecureToken`
(part_011 line 323): the template literal `studentId|timeWindow` where
`timeWindow` is a JavaScript number. -/
def clientTokenMessage (studentId : Str) (timeWindow : JSNum) : Str :=
  studentId ++ '|' :: numToStr timeWindow

/-- Client-side token derivation, `OfflineService.generateSecureToken`
(part_011 lines 320-336), WebCrypto success path: HMAC over the UTF-8 bytes
of `studentId|timeWindow` keyed by `secretKey`, rendered as lowercase hex.
The `!secretKey` throw guard cannot fire at the modelled call sites, which
check the key first; the `catch` fallback is the SubtleCrypto-unavailable
degraded path and is outside the modelled semantics. -/
def generateSecureToken (mac : Mac) (studentId : Str) (timeWindow : JSNum)
    (secretKey : Str) : Str :=
  mac secretKey (clientTokenMessage studentId timeWindow)

/-- Server-side expected signature, `scannerController.validateQR` lines
95-98: HMAC-SHA256 keyed by the stored secret over the template literal
`studentId|timeWindow` with `timeWindow` the parsed number. -/
def serverExpectedToken (mac : Mac) (studentId : Str) (timeWindow : JSNum)
    (secretKey : Str) : Str :=
  mac secretKey (studentId ++ '|' :: numToStr timeWindow)

/-- QR payload built by `generateQR` (authMiddleware part_010 lines 124-155):
the template literal `studentId|timeWindow|qrToken` at the current window. -/
def generateQRPayload (mac : Mac) (studentId : Str) (timeWindow : Nat)
    (secretKey : Str) : Str :=
  studentId ++ '|' :: natToDigits timeWindow ++
    '|' :: generateSecureToken mac studentId (.num timeWindow) secretKey

/-! ## Server verification (`scannerController.validateQR`) -/

/-- Byte length of the UTF-8 encoding of a string (`Buffer.from(s).length`). -/
def utf8Len (s : Str) : Nat := (s.map Char.utf8Size).sum

/-- Result of `crypto.timingSafeEqual`: a boolean, or a thrown `RangeError`
when the two buffers have different byte lengths. -/
inductive TSEResult where
  | ok (b : Bool)
  | err
  deriving DecidableEq

/-- Model of `crypto.timingSafeEqual(Buffer.from(a), Buffer.from(b))`: throws
when the UTF-8 byte lengths differ; otherwise compares all bytes (equality of
the UTF-8 encodings coincides with equality of the strings). -/
def timingSafeEqualJS (a b : Str) : TSEResult :=
  if utf8Len a = utf8Len b then .ok (decide (a = b)) else .err

/-- Student document in the authoritative store (`Server/models/Student.js`),
restricted to the fields `validateQR` reads.  The schema requires
`studentId` to match `[A-Z]{3}-\d{6}` and `secretKey` to be a non-empty
string; `status` is one of `active`, `graduated`, `suspended`. -/
structure StudentRec where
  studentId : Str
  name : Str
  status : Str
  secretKey : Str
  program : Str
  department : Str
  year : Int
  deriving DecidableEq

/-- Student payload of the server's valid-scan response (`validateQR` lines
126-134).  Note the absence of any `secretKey` field. -/
structure StudentView where
  id : Str
  name : Str
  program : Str
  department : Str
  year : Int
  status : Str
  imageLink : Str
  deriving DecidableEq

/-- HTTP response produced by `validateQR`: status code, the `success` and
`valid` flags, the `message` field when present, and the student payload on
a valid scan.  The `expiresAt`, `expiresIn` and `timestamp` fields and the
fire-and-forget `ScanLog.create` side writes do not affect any claim and are
not part of the response model. -/
structure ServerResponse where
  status : Nat
  success : Bool
  valid : Bool
  message : Option Str
  student : Option StudentView
  deriving DecidableEq

/-- Status string `active`. -/
def activeStr : Str := ("active").toList

/-- Response messages of `validateQR`, verbatim from the source. -/
def msgInvalidQRData : Str := ("Invalid QR data").toList

/-- Message for a payload that does not split into three fields. -/
def msgInvalidFormat : Str :=
  ("Invalid QR format (expected: studentId|timeWindow|token)").toList

/-- Message for a window that is NaN or not positive. -/
def msgInvalidWindow : Str := ("Invalid time window").toList

/-- Message for a window outside the tolerance. -/
def msgExpired : Str := ("QR code expired").toList

/-- Message when the student lookup fails. -/
def msgNotFound : Str := ("Student not found").toList

/-- Message when the student status is not `active`. -/
def msgNotActive : Str := ("Student account is not active").toList

/-- Message when the stored secret key is missing. -/
def msgKeyMissing : Str := ("Student secret key missing").toList

/-- Message for a signature mismatch. -/
def msgInvalidToken : Str := ("Invalid QR token").toList

/-- Message produced by the catch-all handler of `validateQR`. -/
def msgServerError : Str := ("Server error during validation").toList

/-- The `isNaN(timeWindow) || timeWindow <= 0` test of `validateQR` line 47. -/
def windowRejected : JSNum → Bool
  | .nan => true
  | .num v => v ≤ 0

/-- The `Math.abs(currentTimeWindow - timeWindow) > 1` test (line 54 server,
line 350 offline).  With a NaN window every comparison is false, so the
expired branch is not taken. -/
def absDiffGt1 (currentWindow : Int) : JSNum → Bool
  | .nan => false
  | .num w => (currentWindow - w).natAbs > 1

/-- Logic of `validateQR` after the destructuring
`const [studentId, timeWindowStr, token] = parts` (line 44): window checks,
student lookup, status and secret checks, signature comparison. -/
def serverValidateParts (mac : Mac) (store : Str → Option StudentRec)
    (imageOf : Str → Str) (currentWindow : Int)
    (studentId timeWindowStr token : Str) : ServerResponse :=
  let timeWindow := jsParseIntNum timeWindowStr
  if windowRejected timeWindow then
    ⟨400, false, false, some msgInvalidWindow, none⟩
  else if absDiffGt1 currentWindow timeWindow then
    ⟨400, true, false, some msgExpired, none⟩
  else
    match store studentId with
    | none => ⟨404, true, false, some msgNotFound, none⟩
    | some rec =>
        if rec.status ≠ activeStr then
          ⟨403, true, false, some msgNotActive, none⟩
        else if rec.secretKey = [] then
          ⟨500, false, false, some msgKeyMissing, none⟩
        else
          let expected :=
            serverExpectedToken mac studentId timeWindow rec.secretKey
          match timingSafeEqualJS token expected with
          | .err => ⟨500, false, false, some msgServerError, none⟩
          | .ok true =>
              ⟨200, true, true, none,
                some ⟨rec.studentId, rec.name, rec.program,
                      rec.department, rec.year, rec.status,
                      imageOf studentId⟩⟩
          | .ok false => ⟨403, true, false, some msgInvalidToken, none⟩

/-- Model of `validateQR` (`Server/controllers/scannerController.js` lines
27-143).  `store` models `Student.findOne({ studentId })` (the subsequent
`findById(...).select('+secretKey')` returns the same document with its
secret), `imageOf` models the `User` lookup for `imageLink`, and
`currentWindow` is `Math.floor(Date.now() / 60000)`.  A thrown
`timingSafeEqual` length error is caught by the outer handler, which
returns the 500 `Server error during validation` response. -/
def serverValidate (mac : Mac) (store : Str → Option StudentRec)
    (imageOf : Str → Str) (currentWindow : Int) (qrData : Str) :
    ServerResponse :=
  if qrData = [] then ⟨400, false, false, some msgInvalidQRData, none⟩
  else
    match splitBar (jsTrim qrData) with
    | [studentId, timeWindowStr, token] =>
        serverValidateParts mac store imageOf currentWindow
          studentId timeWindowStr token
    | _ => ⟨400, false, false, some msgInvalidFormat, none⟩

/-! ## Local Verification Cache (`OfflineService`, part_011)

A field of a cached JavaScript object is modelled at two levels:
`none` = the key is absent, `some none` = the key is present with the value
`undefined`, `some (some v)` = the key holds `v`.  The distinction matters:
object spread `{...existing, ...data}` copies a key that is present with
value `undefined` (overwriting the existing value), while an absent key
leaves the existing value in place.  Reads flatten the two levels. -/

/-- A possibly-absent, possibly-`undefined` field of a cached object. -/
abbrev JSField (α : Type) := Option (Option α)

/-- Reading a field: an absent key and an `undefined` value are both read as
`undefined` (`none`). -/
def jsRead {α : Type} (v : JSField α) : Option α := v.join

/-- Field-level semantics of `{...e, ...d}`: a key present in `d` (even with
value `undefined`) overwrites; an absent key falls back to `e`. -/
def spread2 {α : Type} (e d : JSField α) : JSField α :=
  match d with
  | some v => some v
  | none => e

/-- JavaScript truthiness of a string-valued read: `undefined` and the empty
string are falsy. -/
def jsTruthyStr : Option Str → Bool
  | none => false
  | some [] => false
  | some (_ :: _) => true

/-- A record of the `students` object store in IndexedDB: the JavaScript
object with the keys the core reads and writes. -/
structure CachedStudent where
  studentId : JSField Str
  name : JSField Str
  secretKey : JSField Str
  program : JSField Str
  department : JSField Str
  year : JSField Int
  status : JSField Str
  imageLink : JSField Str
  deriving DecidableEq

/-- The empty object `{}` used when no record exists yet. -/
def emptyCachedStudent : CachedStudent :=
  ⟨none, none, none, none, none, none, none, none⟩

/-- Object spread `{...existing, ...studentData}` over the cached-student
keys (part_011 line 108). -/
def mergeSpread (e d : CachedStudent) : CachedStudent :=
  ⟨spread2 e.studentId d.studentId, spread2 e.name d.name,
   spread2 e.secretKey d.secretKey, spread2 e.program d.program,
   spread2 e.department d.department, spread2 e.year d.year,
   spread2 e.status d.status, spread2 e.imageLink d.imageLink⟩

/-- The local verification cache: the `students` store keyed by `studentId`. -/
abbrev Cache := Str → Option CachedStudent

/-- Model of `OfflineService.storeStudentData` (part_011 lines 99-115): read
the existing record at `studentData.studentId`, merge with
`{...(existing || \x7b\x7d), ...studentData}`, and `put` the merged record
(the store's `keyPath` is `studentId`).  A `put` whose key reads as
`undefined` would throw; no modelled call site produces one, and the model
leaves the cache unchanged in that case.  The opportunistic
`cacheStudentImage` call touches only the image store. -/
def storeStudentData (cache : Cache) (studentData : CachedStudent) : Cache :=
  match jsRead studentData.studentId with
  | none => cache
  | some sid =>
      let existing := (cache sid).getD emptyCachedStudent
      let merged := mergeSpread existing studentData
      fun k => if k = sid then some merged else cache k

/-- Result of `validateQROffline`: the `success` and `valid` flags and the
`message` field.  The student payload of a valid offline scan (built from
the cached record and the image cache) is not inspected by any claim and is
elided. -/
structure OfflineResult where
  success : Bool
  valid : Bool
  message : Option Str
  deriving DecidableEq

/-- Offline message for a payload that does not split into three fields. -/
def msgOffFormat : Str := ("Invalid QR format").toList

/-- Offline message when the cache has no record for the student. -/
def msgOffNotFound : Str := ("Student not found in offline database").toList

/-- Offline message when the cached record lacks a secret key. -/
def msgOffIncomplete : Str := ("Offline data incomplete (missing key)").toList

/-- Logic of `validateQROffline` after the destructuring of the three
parts: window test, cache lookup, status and key checks, comparison.
Note the differences from the server path: there is no
`isNaN(timeWindow) || timeWindow <= 0` rejection — the parsed window goes
straight into the `Math.abs(currentTimeWindow - timeWindow) > 1` test — and
the signature comparison is the plain string inequality
`token.trim() !== expectedToken`. -/
def offlineValidateParts (mac : Mac) (cache : Cache) (currentWindow : Int)
    (studentId timeWindowStr token : Str) : OfflineResult :=
  let timeWindow := jsParseIntNum timeWindowStr
  if absDiffGt1 currentWindow timeWindow then
    ⟨true, false, some msgExpired⟩
  else
    match cache studentId with
    | none => ⟨true, false, some msgOffNotFound⟩
    | some studentData =>
        if jsRead studentData.status ≠ some activeStr then
          ⟨true, false, some msgNotActive⟩
        else if jsTruthyStr (jsRead studentData.secretKey) = false then
          ⟨false, false, some msgOffIncomplete⟩
        else
          let key := (jsRead studentData.secretKey).getD []
          let expected := generateSecureToken mac studentId timeWindow key
          if jsTrim token ≠ expected then
            ⟨true, false, some msgInvalidToken⟩
          else ⟨true, true, none⟩

/-- Model of `OfflineService.validateQROffline` (part_011 lines 340-388). -/
def validateQROffline (mac : Mac) (cache : Cache) (currentWindow : Int)
    (qrData : Str) : OfflineResult :=
  match splitBar (jsTrim qrData) with
  | [studentId, timeWindowStr, token] =>
      offlineValidateParts mac cache currentWindow
        studentId timeWindowStr token
  | _ => ⟨true, false, some msgOffFormat⟩

/-! ## Bulk cache refresh (`OfflineService.syncAllStudents`) -/

/-- An element of the `/api/students/sync-all` response
(`studentController.syncAllStudents` lines 110-119): every field is present
and defined. -/
structure SyncStudent where
  studentId : Str
  name : Str
  secretKey : Str
  program : Str
  department : Str
  year : Int
  status : Str
  imageLink : Str
  deriving DecidableEq

/-- The object literal built for each response record in
`OfflineService.syncAllStudents` (part_011 lines 260-269): all eight keys
are listed, so all are present. -/
def syncLiteral (s : SyncStudent) : CachedStudent :=
  ⟨some (some s.studentId), some (some s.name), some (some s.secretKey),
   some (some s.program), some (some s.department), some (some s.year),
   some (some s.status), some (some s.imageLink)⟩

/-- Model of `OfflineService.syncAllStudents` (part_011 lines 251-278): one
`storeStudentData` upsert per response record, in order. -/
def syncAllStudents (cache : Cache) (resp : List SyncStudent) : Cache :=
  resp.foldl (fun c s => storeStudentData c (syncLiteral s)) cache

/-- Cache state in the middle of a refresh, after the first `n` records of
the response have been upserted (each `storeStudentData` is its own
IndexedDB transaction, so a concurrent `get` can observe exactly these
states). -/
def midSync (cache : Cache) (resp : List SyncStudent) (n : Nat) : Cache :=
  syncAllStudents cache (resp.take n)

/-- The object literal built in `AdminDashboard.handleQRScan` (lines
351-361) after a successful online verification: every key is listed; the
`secretKey` key gets the value of `serverData.student.secretKey`, a field
the server's verification response does not carry, so the key is present
with the value `undefined`. -/
def warmCacheLiteral (sv : StudentView) : CachedStudent :=
  ⟨some (some sv.id), some (some sv.name), some none,
   some (some sv.program), some (some sv.department), some (some sv.year),
   some (some sv.status), some (some sv.imageLink)⟩

/-! ## Authority-side log sync (`scannerController.syncLogs`) -/

/-- A scan-log entry pushed by a device to `/api/scanner/sync-logs`,
restricted to the fields the server reads; each may be absent. -/
structure LogEntry where
  scannerId : Option Str
  studentId : Option Str
  name : Option Str
  timeWindow : Option Int
  token : Option Str
  status : Option Str
  validationTime : Option Int
  timestamp : Option Int
  deriving DecidableEq

/-- A row of the canonical `ScanLog` collection as created by `syncLogs`. -/
structure ScanRow where
  scannerId : Str
  studentId : Str
  studentName : Str
  scannedTimeWindow : Int
  scannedToken : Str
  validationStatus : Str
  validationTime : Int
  timestamp : Option Int
  isSynced : Bool
  deriving DecidableEq

/-- JavaScript `x || d` for a string-valued field: `undefined` and the empty
string fall back to the default. -/
def jsOrStr (v : Option Str) (d : Str) : Str :=
  match v with
  | none => d
  | some [] => d
  | some s => s

/-- JavaScript `x || d` for a number-valued field (`0` is falsy). -/
def jsOrInt (v : Option Int) (d : Int) : Int :=
  match v with
  | none => d
  | some 0 => d
  | some i => i

/-- Row created for one pushed log entry (`syncLogs` lines 195-205): field
defaults via `||`, and the status mapping
`'verified' ↦ 'valid'`, `'expired' ↦ 'expired'`, anything else `↦ 'invalid'`. -/
def toScanRow (log : LogEntry) : ScanRow :=
  ⟨jsOrStr log.scannerId ("offline").toList,
   jsOrStr log.studentId [],
   jsOrStr log.name [],
   jsOrInt log.timeWindow 0,
   jsOrStr log.token [],
   (if log.status = some ("verified").toList then ("valid").toList
    else if log.status = some ("expired").toList then ("expired").toList
    else ("invalid").toList),
   jsOrInt log.validationTime 0,
   log.timestamp,
   true⟩

/-- Model of `scannerController.syncLogs` (lines 185-217): every pushed
entry is appended to the canonical log with `ScanLog.create`,
unconditionally — there is no lookup of an already-recorded outcome — and
the response reports the number of appended rows.  Per-entry database
failures are out of scope and modelled as succeeding. -/
def syncLogs (canonical : List ScanRow) (logs : List LogEntry) :
    List ScanRow × Nat :=
  (canonical ++ logs.map toScanRow, logs.length)

/-! ## Client sync queue (`syncService.triggerSync`) -/

/-- A sync-queue operation: the payload (endpoint, method, data) is
abstracted to an identifier, and `attempts` counts failed pushes. -/
structure SyncOp where
  opId : Nat
  attempts : Nat
  deriving DecidableEq

/-- One online pass of the `triggerSync` loop (`syncService.js` lines
65-94), with `fails op` saying whether the push of `op` gets a non-ok
response or throws: a successful operation is not re-queued; a failed one
has `attempts` incremented and is kept only while `attempts < 3` — an
operation whose incremented count reaches 3 is not added back to
`failedOperations` and so leaves the queue. -/
def triggerSyncPass (fails : SyncOp → Bool) (queue : List SyncOp) :
    List SyncOp :=
  queue.filterMap (fun op =>
    if fails op then
      let op2 : SyncOp := ⟨op.opId, op.attempts + 1⟩
      if op2.attempts < 3 then some op2 else none
    else none)

/-! ## Comparison cost model

The constant-time requirement is about how many byte positions a comparison
examines.  `eqCheckSteps` counts the comparisons performed by a sequential
early-exit equality (the semantics of JavaScript string `!==`), and
`timingSafeEqualSteps` the bytes processed by `crypto.timingSafeEqual`,
which XOR-folds every byte of its equal-length inputs. -/

/-- Positions examined by an early-exit sequential equality before it
returns: it stops at the first mismatch. -/
def eqCheckSteps : Str → Str → Nat
  | [], _ => 0
  | _ :: _, [] => 0
  | a :: as, b :: bs => 1 + if a = b then eqCheckSteps as bs else 0

/-- Cost of the offline comparison `token.trim() !== expectedToken`
(part_011 line 366, `offlineService.js` line 281) under the early-exit
model. -/
def offlineCompareSteps (token expected : Str) : Nat :=
  eqCheckSteps (jsTrim token) expected

/-- Cost of the server comparison `crypto.timingSafeEqual` (line 100): all
bytes of the equal-length buffers are processed, wherever they differ. -/
def timingSafeEqualSteps (a _b : Str) : Nat := utf8Len a

/-! ## Schema-level validity and concrete objects -/

/-- Uppercase ASCII letter. -/
def isUpperChar (c : Char) : Bool := 65 ≤ c.toNat && c.toNat ≤ 90

/-- The `studentId` schema pattern of `Server/models/Student.js`,
`^[A-Z]{3}-\d{6}$`: three uppercase letters, a dash, six digits.  Every
identifier the authoritative store can hold matches it. -/
def validStudentId : Str → Bool
  | a :: b :: c :: d :: rest =>
      isUpperChar a && isUpperChar b && isUpperChar c && d = '-' &&
        decide (rest.length = 6) && rest.all isDigitChar
  | _ => false

/-- A fixed 64-character lowercase-hex digest used to instantiate the MAC
parameter in concrete evaluations. -/
def hexA : Str := List.replicate 64 'a'

/-- A concrete MAC instance (constant digest) for closed evaluations. -/
def macA : Mac := fun _ _ => hexA

/-- Concrete schema-valid identifier. -/
def idA : Str := ("AAA-000001").toList

/-- A second concrete schema-valid identifier. -/
def idB : Str := ("BBB-000002").toList

/-- Concrete secret key. -/
def keyK : Str := ("K").toList

/-- Concrete active student document. -/
def recActive : StudentRec :=
  ⟨idA, ("Alice Doe").toList, activeStr, keyK,
   ("Software Engineering").toList, ("Computer Science").toList, 3⟩

/-- Concrete suspended student document. -/
def recSuspended : StudentRec :=
  ⟨idA, ("Alice Doe").toList, ("suspended").toList, keyK,
   ("Software Engineering").toList, ("Computer Science").toList, 3⟩

/-- Store holding only the active student. -/
def storeActive : Str → Option StudentRec :=
  fun k => if k = idA then some recActive else none

/-- Store holding only the suspended student. -/
def storeSuspended : Str → Option StudentRec :=
  fun k => if k = idA then some recSuspended else none

/-- Image lookup returning the empty link. -/
def imgZero : Str → Str := fun _ => []

/-- Concrete sync-response record for the active student. -/
def syncA : SyncStudent :=
  ⟨idA, ("Alice Doe").toList, keyK, ("Software Engineering").toList,
   ("Computer Science").toList, 3, activeStr, []⟩

/-- Concrete sync-response record for a second student. -/
def syncB : SyncStudent :=
  ⟨idB, ("Bob Roe").toList, keyK, ("Software Engineering").toList,
   ("Computer Science").toList, 2, activeStr, []⟩

/-- Concrete sync-response record with suspended status. -/
def syncSuspended : SyncStudent :=
  ⟨idA, ("Alice Doe").toList, keyK, ("Software Engineering").toList,
   ("Computer Science").toList, 3, ("suspended").toList, []⟩

/-- Cache holding only the active student (with its secret). -/
def cacheActive : Cache :=
  fun k => if k = idA then some (syncLiteral syncA) else none

/-- Cache holding only the suspended student. -/
def cacheSuspended : Cache :=
  fun k => if k = idA then some (syncLiteral syncSuspended) else none

/-- Cache holding only the second student. -/
def cacheB : Cache :=
  fun k => if k = idB then some (syncLiteral syncB) else none

/-- The student payload of the server's valid response for `recActive`
(as `validateQR` builds it, without any secret). -/
def svA : StudentView :=
  ⟨idA, ("Alice Doe").toList, ("Software Engineering").toList,
   ("Computer Science").toList, 3, activeStr, []⟩

/-- A concrete scan-log entry as a device pushes it to the sync endpoint. -/
def logA : LogEntry :=
  ⟨some ("scanner-1").toList, some idA, some ("Alice Doe").toList,
   some 5, some hexA, some ("verified").toList, some 12,
   some 1700000000000⟩

/-! ## Supporting lemmas -/

theorem ws_toNat {c : Char} (h : isJsWhitespace c = true) : c.toNat ≤ 32 := by
  simp [isJsWhitespace] at h
  rcases h with ((((h | h) | h) | h) | h) | h <;> subst h <;> decide

theorem notWs_of_ge {c : Char} (h : 43 ≤ c.toNat) : isJsWhitespace c = false := by
  cases hw : isJsWhitespace c with
  | false => rfl
  | true => exact absurd (ws_toNat hw) (by omega)

theorem ne_bar_of_toNat {c : Char} (h : c.toNat ≠ 124) : c ≠ '|' := by
  intro heq; subst heq; exact h rfl

theorem ne_minus_of_toNat {c : Char} (h : c.toNat ≠ 45) : c ≠ '-' := by
  intro heq; subst heq; exact h rfl

theorem isDigitChar_iff {c : Char} : isDigitChar c = true ↔ 48 ≤ c.toNat ∧ c.toNat ≤ 57 := by
  simp [isDigitChar]

theorem isUpperChar_iff {c : Char} : isUpperChar c = true ↔ 65 ≤ c.toNat ∧ c.toNat ≤ 90 := by
  simp [isUpperChar]

theorem isLowerHexDigit_toNat {c : Char} (h : isLowerHexDigit c = true) :
    48 ≤ c.toNat ∧ c.toNat ≤ 102 := by
  simp [isLowerHexDigit, isDigitChar] at h
  rcases h with h | h <;> omega


theorem dropWhileAll {p : Char → Bool} :
    ∀ {s : Str}, (∀ c ∈ s, p c = false) → s.dropWhile p = s := by
  intro s h
  induction s with
  | nil => rfl
  | cons a l ih =>
      rw [List.dropWhile_cons, h a (by simp)]
      simp

theorem takeWhileAll {p : Char → Bool} :
    ∀ {s : Str}, (∀ c ∈ s, p c = true) → s.takeWhile p = s := by
  intro s h
  induction s with
  | nil => rfl
  | cons a l ih =>
      rw [List.takeWhile_cons, h a (by simp), if_pos rfl,
        ih (fun c hc => h c (by simp [hc]))]

theorem jsTrimNoWs {s : Str} (h : ∀ c ∈ s, isJsWhitespace c = false) :
    jsTrim s = s := by
  unfold jsTrim
  rw [dropWhileAll h, dropWhileAll (fun c hc => h c (List.mem_reverse.mp hc)),
    List.reverse_reverse]

theorem splitBarNeNil : ∀ s : Str, splitBar s ≠ [] := by
  intro s
  cases s with
  | nil => simp [splitBar]
  | cons c rest =>
      simp only [splitBar]
      split <;> simp

theorem consHeadDTail {l : List Str} (h : l ≠ []) : l.headD [] :: l.tail = l := by
  cases l with
  | nil => exact absurd rfl h
  | cons a t => rfl

theorem splitBarConsNe {a : Char} (rest : Str) (ha : a ≠ '|') :
    splitBar (a :: rest) = (a :: (splitBar rest).headD []) :: (splitBar rest).tail := by
  simp only [splitBar, if_neg ha]

theorem splitBarConsBar (rest : Str) :
    splitBar ('|' :: rest) = [] :: splitBar rest := by
  simp [splitBar]

theorem splitBarNoBar :
    ∀ (xs ys : Str), (∀ c ∈ xs, c ≠ '|') →
      splitBar (xs ++ ys) = (xs ++ (splitBar ys).headD []) :: (splitBar ys).tail := by
  intro xs
  induction xs with
  | nil =>
      intro ys _
      simp only [List.nil_append]
      exact (consHeadDTail (splitBarNeNil ys)).symm
  | cons a l ih =>
      intro ys h
      have ha : a ≠ '|' := h a (by simp)
      rw [List.cons_append, splitBarConsNe _ ha, ih ys (fun c hc => h c (by simp [hc]))]
      simp

theorem splitBarSingleton {sig : Str} (hs : ∀ c ∈ sig, c ≠ '|') :
    splitBar sig = [sig] := by
  have h := splitBarNoBar sig [] hs
  simp only [List.append_nil] at h
  rw [h]
  simp [splitBar]

theorem splitBarSerialize {id wstr sig : Str}
    (hid : ∀ c ∈ id, c ≠ '|') (hw : ∀ c ∈ wstr, c ≠ '|')
    (hs : ∀ c ∈ sig, c ≠ '|') :
    splitBar (id ++ '|' :: (wstr ++ '|' :: sig)) = [id, wstr, sig] := by
  have h3 : splitBar (wstr ++ '|' :: sig) = [wstr, sig] := by
    rw [splitBarNoBar wstr ('|' :: sig) hw, splitBarConsBar, splitBarSingleton hs]
    simp
  rw [splitBarNoBar id ('|' :: (wstr ++ '|' :: sig)) hid, splitBarConsBar, h3]
  simp


theorem digitCharFacts : ∀ d : Nat, d < 10 →
    isDigitChar (digitChar d) = true ∧ digitVal (digitChar d) = d := by
  decide

theorem natToDigitsAuxDigits :
    ∀ (fuel n : Nat), n < fuel → ∀ c ∈ natToDigitsAux fuel n, isDigitChar c = true := by
  intro fuel
  induction fuel with
  | zero => intro n h; omega
  | succ f ih =>
      intro n hn c hc
      by_cases h10 : n < 10
      · simp only [natToDigitsAux, if_pos h10, List.mem_singleton] at hc
        subst hc
        exact (digitCharFacts n h10).1
      · simp only [natToDigitsAux, if_neg h10, List.mem_append, List.mem_singleton] at hc
        rcases hc with hc | hc
        · exact ih (n / 10) (by omega) c hc
        · subst hc
          exact (digitCharFacts (n % 10) (Nat.mod_lt n (by omega))).1

theorem natOfDigitsAppendOne (xs : Str) (c : Char) :
    natOfDigits (xs ++ [c]) = natOfDigits xs * 10 + digitVal c := by
  unfold natOfDigits
  rw [List.foldl_append]
  rfl

theorem natToDigitsAuxRound :
    ∀ (fuel n : Nat), n < fuel → natOfDigits (natToDigitsAux fuel n) = n := by
  intro fuel
  induction fuel with
  | zero => intro n h; omega
  | succ f ih =>
      intro n hn
      by_cases h10 : n < 10
      · simp only [natToDigitsAux, if_pos h10]
        show natOfDigits [digitChar n] = n
        unfold natOfDigits
        simp [(digitCharFacts n h10).2]
      · simp only [natToDigitsAux, if_neg h10]
        rw [natOfDigitsAppendOne, ih (n / 10) (by omega),
          (digitCharFacts (n % 10) (Nat.mod_lt n (by omega))).2]
        omega

theorem natToDigitsDigits {n : Nat} : ∀ c ∈ natToDigits n, isDigitChar c = true :=
  natToDigitsAuxDigits (n + 1) n (by omega)

theorem natToDigitsRound (n : Nat) : natOfDigits (natToDigits n) = n :=
  natToDigitsAuxRound (n + 1) n (by omega)

theorem natToDigitsNeNil (n : Nat) : natToDigits n ≠ [] := by
  unfold natToDigits natToDigitsAux
  by_cases h10 : n < 10 <;> simp [h10]

theorem jsParseIntNatToDigits (n : Nat) : jsParseInt (natToDigits n) = some (n : Int) := by
  have hdig := @natToDigitsDigits n
  have hnws : ∀ c ∈ natToDigits n, isJsWhitespace c = false := by
    intro c hc
    exact notWs_of_ge (by have := (isDigitChar_iff).mp (hdig c hc); omega)
  unfold jsParseInt
  rw [dropWhileAll hnws]
  obtain ⟨a, rest, hnd⟩ := List.exists_cons_of_ne_nil (natToDigitsNeNil n)
  rw [hnd]
  have ha : isDigitChar a = true := hdig a (by rw [hnd]; simp)
  have hbound := (isDigitChar_iff).mp ha
  have hne1 : a ≠ '-' := ne_minus_of_toNat (by omega)
  have hne2 : a ≠ '+' := by
    intro heq; subst heq; revert hbound; decide
  simp only [if_neg hne1, if_neg hne2]
  rw [← hnd]
  unfold leadingDigits
  rw [takeWhileAll hdig]
  simp [List.isEmpty_iff, natToDigitsNeNil n, natToDigitsRound n]

theorem jsParseIntNumNat (n : Nat) : jsParseIntNum (natToDigits n) = .num (n : Int) := by
  unfold jsParseIntNum
  rw [jsParseIntNatToDigits n]

theorem numToStrNat (n : Nat) : numToStr (.num (n : Int)) = natToDigits n := by
  show (if (n : Int) < 0 then '-' :: natToDigits (n : Int).natAbs
        else natToDigits (n : Int).toNat) = natToDigits n
  rw [if_neg (by omega)]
  simp


theorem digitOrdinary {c : Char} (h : isDigitChar c = true) :
    isJsWhitespace c = false ∧ c ≠ '|' := by
  have hb := (isDigitChar_iff).mp h
  exact ⟨notWs_of_ge (by omega), ne_bar_of_toNat (by omega)⟩

theorem hexOrdinary {c : Char} (h : isLowerHexDigit c = true) :
    isJsWhitespace c = false ∧ c ≠ '|' := by
  have hb := isLowerHexDigit_toNat h
  exact ⟨notWs_of_ge (by omega), ne_bar_of_toNat (by omega)⟩

theorem upperOrdinary {c : Char} (h : isUpperChar c = true) :
    isJsWhitespace c = false ∧ c ≠ '|' := by
  have hb := (isUpperChar_iff).mp h
  exact ⟨notWs_of_ge (by omega), ne_bar_of_toNat (by omega)⟩

theorem validStudentIdChars {s : Str} (h : validStudentId s = true) :
    s ≠ [] ∧ ∀ c ∈ s, isJsWhitespace c = false ∧ c ≠ '|' := by
  match s, h with
  | a :: b :: c :: d :: rest, h =>
      simp only [validStudentId, Bool.and_eq_true, decide_eq_true_eq] at h
      obtain ⟨⟨⟨⟨⟨ha, hb⟩, hc⟩, hd⟩, _⟩, hrest⟩ := h
      refine ⟨by simp, ?_⟩
      intro x hx
      simp only [List.mem_cons] at hx
      rcases hx with rfl | rfl | rfl | rfl | hx
      · exact upperOrdinary ha
      · exact upperOrdinary hb
      · exact upperOrdinary hc
      · subst hd; exact ⟨by decide, by decide⟩
      · exact digitOrdinary (by
          rw [List.all_eq_true] at hrest
          exact hrest x hx)

theorem hexSigChars {s : Str} (h : isHexSig s) :
    ∀ c ∈ s, isJsWhitespace c = false ∧ c ≠ '|' :=
  fun c hc => hexOrdinary (h.2 c hc)

/-! ## Reduction lemmas for the verification paths -/

theorem serverValidateSplit {mac : Mac} {store : Str → Option StudentRec}
    {imageOf : Str → Str} {cw : Int} {qr a b c : Str}
    (h : splitBar (jsTrim qr) = [a, b, c]) :
    serverValidate mac store imageOf cw qr =
      serverValidateParts mac store imageOf cw a b c := by
  have hqr : qr ≠ [] := by
    rintro rfl
    simp [jsTrim, splitBar] at h
  unfold serverValidate
  rw [if_neg hqr, h]

theorem offlineValidateSplit {mac : Mac} {cache : Cache} {cw : Int}
    {qr a b c : Str} (h : splitBar (jsTrim qr) = [a, b, c]) :
    validateQROffline mac cache cw qr =
      offlineValidateParts mac cache cw a b c := by
  unfold validateQROffline
  rw [h]

theorem qrPayloadSplit {mac : Mac} {id : Str} {w : Nat} {secret : Str}
    (hmac : ∀ k m, isHexSig (mac k m)) (hid : validStudentId id = true) :
    jsTrim (generateQRPayload mac id w secret) = generateQRPayload mac id w secret
    ∧ splitBar (generateQRPayload mac id w secret)
        = [id, natToDigits w,
           generateSecureToken mac id (.num (w : Int)) secret] := by
  obtain ⟨hidne, hidc⟩ := validStudentIdChars hid
  have hdigc : ∀ c ∈ natToDigits w, isJsWhitespace c = false ∧ c ≠ '|' :=
    fun c hc => digitOrdinary (natToDigitsDigits c hc)
  have hsigc : ∀ c ∈ generateSecureToken mac id (.num (w : Int)) secret,
      isJsWhitespace c = false ∧ c ≠ '|' :=
    hexSigChars (hmac secret (clientTokenMessage id (.num (w : Int))))
  have hmem : ∀ c ∈ generateQRPayload mac id w secret,
      isJsWhitespace c = false := by
    intro c hc
    unfold generateQRPayload at hc
    rcases List.mem_append.mp hc with h1 | h2
    · rcases List.mem_append.mp h1 with h3 | h4
      · exact (hidc c h3).1
      · rcases List.mem_cons.mp h4 with rfl | h5
        · decide
        · exact (hdigc c h5).1
    · rcases List.mem_cons.mp h2 with rfl | h6
      · decide
      · exact (hsigc c h6).1
  refine ⟨jsTrimNoWs hmem, ?_⟩
  unfold generateQRPayload
  rw [List.append_assoc, List.cons_append]
  exact splitBarSerialize (fun c hc => (hidc c hc).2)
    (fun c hc => (hdigc c hc).2) (fun c hc => (hsigc c hc).2)

theorem tseSelf (a : Str) : timingSafeEqualJS a a = .ok true := by
  simp [timingSafeEqualJS]

theorem jsParseIntNumSome {b : Str} {w : Int} (h : jsParseInt b = some w) :
    jsParseIntNum b = .num w := by
  unfold jsParseIntNum
  rw [h]

theorem triggerSyncPassEq (fails : SyncOp → Bool) (queue : List SyncOp) :
    triggerSyncPass fails queue =
      (queue.filter (fun op => fails op && decide (op.attempts + 1 < 3))).map
        (fun op => ⟨op.opId, op.attempts + 1⟩) := by
  induction queue with
  | nil => rfl
  | cons a t ih =>
      simp only [triggerSyncPass, List.filterMap_cons, List.filter_cons] at *
      by_cases hf : fails a
      · by_cases h3 : a.attempts + 1 < 3
        · simp [hf, h3, ih]
        · simp [hf, h3, ih]
      · simp [hf, ih]

theorem mergeSpreadSyncLiteral (e : CachedStudent) (s : SyncStudent) :
    mergeSpread e (syncLiteral s) = syncLiteral s := rfl

theorem storeSyncLiteralAt (cache : Cache) (s : SyncStudent) (k : Str) :
    storeStudentData cache (syncLiteral s) k =
      if k = s.studentId then some (syncLiteral s) else cache k := rfl

theorem syncAllRetains :
    ∀ (resp : List SyncStudent) (cache : Cache) (k : Str),
      (∀ s ∈ resp, s.studentId ≠ k) → syncAllStudents cache resp k = cache k := by
  intro resp
  induction resp with
  | nil => intro cache k _; rfl
  | cons s t ih =>
      intro cache k h
      show syncAllStudents (storeStudentData cache (syncLiteral s)) t k = cache k
      rw [ih _ k (fun x hx => h x (by simp [hx])), storeSyncLiteralAt,
        if_neg (fun heq => h s (by simp) heq.symm)]

theorem syncAllOldOrNew :
    ∀ (resp : List SyncStudent) (cache : Cache) (k : Str),
      syncAllStudents cache resp k = cache k
      ∨ ∃ s ∈ resp, syncAllStudents cache resp k = some (syncLiteral s) := by
  intro resp
  induction resp with
  | nil => intro cache k; exact Or.inl rfl
  | cons s t ih =>
      intro cache k
      have hstep : syncAllStudents cache (s :: t) k =
          syncAllStudents (storeStudentData cache (syncLiteral s)) t k := rfl
      rcases ih (storeStudentData cache (syncLiteral s)) k with h | ⟨x, hx, hh⟩
      · rw [hstep, h, storeSyncLiteralAt]
        by_cases hk : k = s.studentId
        · exact Or.inr ⟨s, by simp, by rw [if_pos hk]⟩
        · exact Or.inl (by rw [if_neg hk])
      · exact Or.inr ⟨x, by simp [hx], by rw [hstep]; exact hh⟩

theorem hexAIsHexSig : isHexSig hexA := ⟨by decide, by decide⟩

/-! ## Claim theorems -/

/-- C1: for every schema-valid identifier, positive window `w` and non-empty
secret, the client derivation and the server expected-signature computation
are the same MAC of `identifier|w`, and verifying the serialized token
`identifier|w|signature` against a store holding that `(identifier, secret)`
with status `active`, at a time whose current window equals `w`, yields the
valid outcome. -/
theorem C1_client_server_derivation_agree_and_verify_valid
    (mac : Mac) (store : Str → Option StudentRec) (imageOf : Str → Str)
    (id : Str) (w : Nat) (secret : Str) (rec : StudentRec)
    (hmac : ∀ k m, isHexSig (mac k m))
    (hid : validStudentId id = true)
    (hw : 1 ≤ w)
    (hstore : store id = some rec)
    (hsec : rec.secretKey = secret)
    (hne : secret ≠ [])
    (hst : rec.status = activeStr) :
    generateSecureToken mac id (.num (w : Int)) secret
        = serverExpectedToken mac id (.num (w : Int)) secret
      ∧ serverValidate mac store imageOf (w : Int)
          (generateQRPayload mac id w secret)
        = ⟨200, true, true, none,
           some ⟨rec.studentId, rec.name, rec.program, rec.department,
                 rec.year, rec.status, imageOf id⟩⟩ := by
  obtain ⟨htrim, hsplit⟩ := @qrPayloadSplit mac id w secret hmac hid
  refine ⟨rfl, ?_⟩
  rw [serverValidateSplit (by rw [htrim]; exact hsplit)]
  have hws : windowRejected (JSNum.num (w : Int)) = false := by
    simp [windowRejected]; omega
  have habs : absDiffGt1 (w : Int) (JSNum.num (w : Int)) = false := by
    simp [absDiffGt1]
  simp [serverValidateParts, jsParseIntNumNat, hws, habs, hstore, hst, hsec,
    hne, generateSecureToken, serverExpectedToken, clientTokenMessage, tseSelf]

/-- Witness for C1 at identifier `AAA-000001`, window 5, secret `K`. -/
theorem C1_witness :
    (∀ k m, isHexSig (macA k m))
    ∧ validStudentId idA = true
    ∧ storeActive idA = some recActive
    ∧ recActive.status = activeStr
    ∧ (generateSecureToken macA idA (.num (5 : Nat)) keyK
         = serverExpectedToken macA idA (.num (5 : Nat)) keyK
       ∧ serverValidate macA storeActive imgZero ((5 : Nat) : Int)
           (generateQRPayload macA idA 5 keyK)
         = ⟨200, true, true, none,
            some ⟨recActive.studentId, recActive.name, recActive.program,
                  recActive.department, recActive.year, recActive.status,
                  imgZero idA⟩⟩) :=
  ⟨fun _ _ => hexAIsHexSig, by decide, by decide, rfl,
   C1_client_server_derivation_agree_and_verify_valid macA storeActive imgZero
     idA 5 keyK recActive
     (fun _ _ => hexAIsHexSig) (by decide) (by decide) (by decide) rfl
     (by decide) rfl⟩

/-- C2 counterexample: the input `AAA-000001|-5|x` parses into three fields,
its window −5 satisfies `|10 − (−5)| > 1`, yet the server classifies it as
`Invalid time window` (invalid), not as expired, because the positivity
check precedes the expiry check. -/
theorem C2_counterexample :
    jsParseInt (("-5").toList) = some (-5)
    ∧ serverValidate macA storeActive imgZero 10 (("AAA-000001|-5|x").toList)
        = ⟨400, false, false, some msgInvalidWindow, none⟩
    ∧ ((10 : Int) - (-5)).natAbs > 1
    ∧ msgInvalidWindow ≠ msgExpired := by
  refine ⟨by decide, by decide, by decide, by decide⟩

/-- C2 amended: for every input that parses into three fields whose window
parses as a positive integer with `|currentWindow − w| > 1`, both the server
path and the offline path classify the scan as expired, regardless of the
signature. -/
theorem C2_expired_for_positive_window
    (mac : Mac) (store : Str → Option StudentRec) (imageOf : Str → Str)
    (cache : Cache) (cw : Int) (qr a b c : Str) (w : Int)
    (hsplit : splitBar (jsTrim qr) = [a, b, c])
    (hparse : jsParseInt b = some w)
    (hw : 1 ≤ w)
    (hdiff : 1 < (cw - w).natAbs) :
    serverValidate mac store imageOf cw qr
        = ⟨400, true, false, some msgExpired, none⟩
    ∧ validateQROffline mac cache cw qr = ⟨true, false, some msgExpired⟩ := by
  rw [serverValidateSplit hsplit, offlineValidateSplit hsplit]
  have hnum := jsParseIntNumSome hparse
  have hws : windowRejected (JSNum.num w) = false := by
    simp [windowRejected]; omega
  have habs : absDiffGt1 cw (JSNum.num w) = true := by
    simp [absDiffGt1]; omega
  constructor
  · simp [serverValidateParts, hnum, hws, habs]
  · simp [offlineValidateParts, hnum, habs]

/-- Witness for the amended C2 at `AAA-001|5|x`, current window 100. -/
theorem C2_witness :
    splitBar (jsTrim (("AAA-000001|5|x").toList))
        = [idA, ("5").toList, ("x").toList]
    ∧ jsParseInt (("5").toList) = some 5
    ∧ (1 : Int) ≤ 5
    ∧ 1 < ((100 : Int) - 5).natAbs
    ∧ (serverValidate macA storeActive imgZero 100 (("AAA-000001|5|x").toList)
        = ⟨400, true, false, some msgExpired, none⟩
      ∧ validateQROffline macA cacheActive 100 (("AAA-000001|5|x").toList)
        = ⟨true, false, some msgExpired⟩) :=
  ⟨by decide, by decide, by decide, by decide,
   C2_expired_for_positive_window macA storeActive imgZero cacheActive 100
     (("AAA-000001|5|x").toList) idA (("5").toList) (("x").toList) 5
     (by decide) (by decide) (by decide) (by decide)⟩

/-- C3 counterexample: a verification request reaching the signature check
with the 3-character presented signature `abc` (shorter than the 64-character
expected one) makes `timingSafeEqual` throw; the catch-all returns the 500
`Server error during validation` response, not the classified
`Invalid QR token` outcome the claim requires. -/
theorem C3_counterexample :
    serverValidate macA storeActive imgZero 5 (("AAA-000001|5|abc").toList)
      = ⟨500, false, false, some msgServerError, none⟩
    ∧ msgServerError ≠ msgInvalidToken := by
  refine ⟨by decide, by decide⟩

/-- C3 amended: for every request reaching the signature check, a presented
signature of the same byte length as the expected one that differs from it
yields the classified invalid outcome `Invalid QR token`, while a presented
signature of a different byte length makes `timingSafeEqual` throw and the
caught error terminates in the 500 `Server error during validation`
response (`success = false`, `valid = false`) — no exception escapes, but
the outcome is reported as a server error, not as a classified invalid. -/
theorem C3_mismatch_invalid_or_length_error
    (mac : Mac) (store : Str → Option StudentRec) (imageOf : Str → Str)
    (cw : Int) (qr a b c : Str) (w : Int) (rec : StudentRec)
    (hsplit : splitBar (jsTrim qr) = [a, b, c])
    (hparse : jsParseInt b = some w)
    (hw : 1 ≤ w)
    (hdiff : ¬1 < (cw - w).natAbs)
    (hstore : store a = some rec)
    (hst : rec.status = activeStr)
    (hne : rec.secretKey ≠ []) :
    (utf8Len c = utf8Len (serverExpectedToken mac a (.num w) rec.secretKey) →
      c ≠ serverExpectedToken mac a (.num w) rec.secretKey →
      serverValidate mac store imageOf cw qr
        = ⟨403, true, false, some msgInvalidToken, none⟩)
    ∧ (utf8Len c ≠ utf8Len (serverExpectedToken mac a (.num w) rec.secretKey) →
      serverValidate mac store imageOf cw qr
        = ⟨500, false, false, some msgServerError, none⟩) := by
  rw [serverValidateSplit hsplit]
  have hnum := jsParseIntNumSome hparse
  have hws : windowRejected (JSNum.num w) = false := by
    simp [windowRejected]; omega
  have habs : absDiffGt1 cw (JSNum.num w) = false := by
    simp [absDiffGt1]; omega
  constructor
  · intro hlen hneq
    have htse : timingSafeEqualJS c (serverExpectedToken mac a (.num w) rec.secretKey)
        = .ok false := by
      simp [timingSafeEqualJS, hlen, hneq]
    simp [serverValidateParts, hnum, hws, habs, hstore, hst, hne, htse]
  · intro hlen
    have htse : timingSafeEqualJS c (serverExpectedToken mac a (.num w) rec.secretKey)
        = .err := by
      simp [timingSafeEqualJS, hlen]
    simp [serverValidateParts, hnum, hws, habs, hstore, hst, hne, htse]

/-- Witness for the amended C3: a same-length (64-byte) wrong signature of
`b` characters yields the classified `Invalid QR token` outcome. -/
theorem C3_witness :
    utf8Len (List.replicate 64 'b')
        = utf8Len (serverExpectedToken macA idA (.num 5) recActive.secretKey)
    ∧ List.replicate 64 'b'
        ≠ serverExpectedToken macA idA (.num 5) recActive.secretKey
    ∧ serverValidate macA storeActive imgZero 5
        ((("AAA-000001|5|").toList) ++ List.replicate 64 'b')
        = ⟨403, true, false, some msgInvalidToken, none⟩ :=
  ⟨by decide, by decide,
   (C3_mismatch_invalid_or_length_error macA storeActive imgZero 5
      ((("AAA-000001|5|").toList) ++ List.replicate 64 'b')
      idA (("5").toList) (List.replicate 64 'b') 5 recActive
      (by decide) (by decide) (by decide) (by decide) (by decide) rfl
      (by decide)).1 (by decide) (by decide)⟩

/-- C4: the offline comparison `token.trim() !== expectedToken` is an
early-exit string equality — the number of positions it examines depends on
where the strings first differ (1 step versus 8 steps on equal-length
inputs below), while the server's `timingSafeEqual` processes every byte
regardless.  The local verification path therefore does not compare in
constant time. -/
theorem C4_offline_compare_early_exit :
    offlineCompareSteps ('b' :: List.replicate 7 'a') (List.replicate 8 'a') = 1
    ∧ offlineCompareSteps (List.replicate 7 'a' ++ ['b']) (List.replicate 8 'a') = 8
    ∧ ('b' :: List.replicate 7 'a' : Str).length
        = (List.replicate 7 'a' ++ ['b'] : Str).length
    ∧ timingSafeEqualSteps ('b' :: List.replicate 7 'a') (List.replicate 8 'a')
        = timingSafeEqualSteps (List.replicate 7 'a' ++ ['b']) (List.replicate 8 'a') := by
  refine ⟨by decide, by decide, by decide, by decide⟩

/-- C5: the offline path performs no window-parse check.  A zero window at
current window 2 is classified expired (not invalid); a non-numeric window
(`parseInt` NaN) skips the expiry test — every NaN comparison is false —
and proceeds to the signature check, where a token matching the MAC of
`identifier|NaN` even validates.  The server path, by contrast, classifies
a zero window as `Invalid time window`. -/
theorem C5_offline_window_unchecked :
    validateQROffline macA cacheActive 2 (("AAA-000001|0|x").toList)
        = ⟨true, false, some msgExpired⟩
    ∧ validateQROffline macA cacheActive 100 ((("AAA-000001|abc|").toList) ++ hexA)
        = ⟨true, true, none⟩
    ∧ serverValidate macA storeActive imgZero 2 (("AAA-000001|0|x").toList)
        = ⟨400, false, false, some msgInvalidWindow, none⟩
    ∧ jsParseInt (("abc").toList) = none := by
  refine ⟨by decide, by decide, by decide, by decide⟩

/-- C6: for every well-formed, in-window token whose holder's status is not
`active`, both the server path and the offline path classify the scan as
invalid with the message `Student account is not active`, whatever the
presented signature. -/
theorem C6_inactive_holder_invalid
    (mac : Mac) (store : Str → Option StudentRec) (imageOf : Str → Str)
    (cache : Cache) (cw : Int) (qr a b c : Str) (w : Int)
    (rec : StudentRec) (sd : CachedStudent) (st : Str)
    (hsplit : splitBar (jsTrim qr) = [a, b, c])
    (hparse : jsParseInt b = some w)
    (hw : 1 ≤ w)
    (hdiff : ¬1 < (cw - w).natAbs)
    (hstore : store a = some rec)
    (hst : rec.status ≠ activeStr)
    (hcache : cache a = some sd)
    (hsdst : jsRead sd.status = some st)
    (hstne : st ≠ activeStr) :
    serverValidate mac store imageOf cw qr
        = ⟨403, true, false, some msgNotActive, none⟩
    ∧ validateQROffline mac cache cw qr = ⟨true, false, some msgNotActive⟩ := by
  rw [serverValidateSplit hsplit, offlineValidateSplit hsplit]
  have hnum := jsParseIntNumSome hparse
  have hws : windowRejected (JSNum.num w) = false := by
    simp [windowRejected]; omega
  have habs : absDiffGt1 cw (JSNum.num w) = false := by
    simp [absDiffGt1]; omega
  constructor
  · simp [serverValidateParts, hnum, hws, habs, hstore, hst]
  · simp [offlineValidateParts, hnum, habs, hcache, hsdst, hstne]

/-- Witness for C6 with a suspended holder: both paths return the
`Student account is not active` outcome even for a matching signature. -/
theorem C6_witness :
    recSuspended.status ≠ activeStr
    ∧ jsRead (syncLiteral syncSuspended).status = some (("suspended").toList)
    ∧ (serverValidate macA storeSuspended imgZero 5
        (generateQRPayload macA idA 5 keyK)
        = ⟨403, true, false, some msgNotActive, none⟩
      ∧ validateQROffline macA cacheSuspended 5
        (generateQRPayload macA idA 5 keyK)
        = ⟨true, false, some msgNotActive⟩) :=
  ⟨by decide, by decide,
   C6_inactive_holder_invalid macA storeSuspended imgZero cacheSuspended 5
     (generateQRPayload macA idA 5 keyK) idA (natToDigits 5)
     (generateSecureToken macA idA (.num (5 : Int)) keyK) 5
     recSuspended (syncLiteral syncSuspended) (("suspended").toList)
     (by decide) (by decide) (by decide) (by decide) (by decide)
     (by decide) (by decide) (by decide) (by decide)⟩

/-- C7 counterexample: pushing the same scan-log entry to the sync endpoint
twice grows the canonical log from one row to two — the authority appends
on re-delivery instead of treating it as a no-op. -/
theorem C7_counterexample :
    ((syncLogs [] [logA]).1).length = 1
    ∧ ((syncLogs (syncLogs [] [logA]).1 [logA]).1).length = 2 := by
  refine ⟨by decide, by decide⟩

/-- C7 amended: `syncLogs` appends one canonical row per delivered entry,
unconditionally — there is no idempotence key — so delivering the same
outcome twice increases the log by exactly two rows, and a retried flush
after a partial network failure duplicates rows. -/
theorem C7_log_grows_per_delivery
    (canonical : List ScanRow) (logs : List LogEntry) (e : LogEntry) :
    ((syncLogs canonical logs).1).length = canonical.length + logs.length
    ∧ ((syncLogs (syncLogs canonical [e]).1 [e]).1).length
        = canonical.length + 2 := by
  constructor <;> simp [syncLogs]

/-- Witness for the amended C7 at the concrete entry `logA`. -/
theorem C7_witness :
    ((syncLogs [] [logA]).1).length
        = ([] : List ScanRow).length + [logA].length
    ∧ ((syncLogs (syncLogs [] [logA]).1 [logA]).1).length
        = ([] : List ScanRow).length + 2 :=
  C7_log_grows_per_delivery [] [logA] logA

/-- C8 counterexample: an entry with two prior failed attempts whose push
fails again is removed from the queue entirely — `triggerSync` keeps only
entries whose incremented count stays below 3 — rather than remaining
present as a dormant entry. -/
theorem C8_counterexample :
    triggerSyncPass (fun _ => true) [⟨7, 2⟩] = []
    ∧ (fun _ => true) (⟨7, 2⟩ : SyncOp) = true := by
  refine ⟨by decide, rfl⟩

/-- C8 amended: a failed push increments the entry's attempt counter and the
entry stays queued only while the incremented count is below 3; an entry
reaching 3 failed attempts is removed from the queue (every surviving entry
has between 1 and 2 recorded attempts). -/
theorem C8_failed_entries_bounded_retry
    (fails : SyncOp → Bool) (queue : List SyncOp) :
    triggerSyncPass fails queue =
      (queue.filter (fun op => fails op && decide (op.attempts + 1 < 3))).map
        (fun op => ⟨op.opId, op.attempts + 1⟩)
    ∧ (∀ op ∈ queue, fails op = true → op.attempts + 1 < 3 →
        (⟨op.opId, op.attempts + 1⟩ : SyncOp) ∈ triggerSyncPass fails queue)
    ∧ (∀ op ∈ triggerSyncPass fails queue,
        1 ≤ op.attempts ∧ op.attempts < 3) := by
  refine ⟨triggerSyncPassEq fails queue, ?_, ?_⟩
  · intro op hop hf h3
    rw [triggerSyncPassEq]
    exact List.mem_map.mpr ⟨op, List.mem_filter.mpr ⟨hop, by simp [hf, h3]⟩, rfl⟩
  · intro op hop
    rw [triggerSyncPassEq] at hop
    obtain ⟨x, hx, rfl⟩ := List.mem_map.mp hop
    have hfx := (List.mem_filter.mp hx).2
    simp only [Bool.and_eq_true, decide_eq_true_eq] at hfx
    refine ⟨?_, ?_⟩
    · show 1 ≤ x.attempts + 1
      omega
    · show x.attempts + 1 < 3
      exact hfx.2

/-- Witness for the amended C8: a fresh failed entry is retried with the
counter incremented. -/
theorem C8_witness :
    (⟨9, 1⟩ : SyncOp) ∈ triggerSyncPass (fun _ => true) [⟨9, 0⟩] :=
  (C8_failed_entries_bounded_retry (fun _ => true) [⟨9, 0⟩]).2.1
    ⟨9, 0⟩ (by decide) rfl (by decide)

/-- C9 counterexample: a bulk refresh whose response contains only student
`AAA-000001` leaves the previously cached record of `BBB-000002` in place —
the cache after the refresh is not exactly the entry set returned by the
authority. -/
theorem C9_counterexample :
    syncAllStudents cacheB [syncA] idB = some (syncLiteral syncB)
    ∧ syncA.studentId ≠ idB := by
  refine ⟨by decide, by decide⟩

/-- C9 amended: the bulk refresh is an incremental per-record upsert, not a
swap-on-complete: entries absent from the response are retained, and at any
intermediate point of the refresh a `get` observes either the old record or
a record built entirely from one response element (no record mixes fields,
because every upsert overwrites all eight keys). -/
theorem C9_incremental_refresh :
    (∀ (cache : Cache) (resp : List SyncStudent) (k : Str),
       (∀ s ∈ resp, s.studentId ≠ k) → syncAllStudents cache resp k = cache k)
    ∧ (∀ (cache : Cache) (resp : List SyncStudent) (n : Nat) (k : Str),
       midSync cache resp n k = cache k
       ∨ ∃ s ∈ resp, midSync cache resp n k = some (syncLiteral s)) := by
  constructor
  · intro cache resp k h
    exact syncAllRetains resp cache k h
  · intro cache resp n k
    rcases syncAllOldOrNew (resp.take n) cache k with h | ⟨s, hs, hh⟩
    · exact Or.inl h
    · exact Or.inr ⟨s, List.take_subset n resp hs, hh⟩

/-- Witness for the amended C9: the stale record of `BBB-000002` survives a
refresh that does not mention it. -/
theorem C9_witness :
    (∀ s ∈ [syncA], s.studentId ≠ idB)
    ∧ syncAllStudents cacheB [syncA] idB = cacheB idB :=
  ⟨by decide, C9_incremental_refresh.1 cacheB [syncA] idB (by decide)⟩

/-- C10: the warm-cache write after a successful online verification builds
its object literal with `secretKey: serverData.student.secretKey`, a field
the server response does not carry, so the key is present with value
`undefined` and the spread overwrites the cached non-empty secret with
`undefined`: a student verifiable offline before the warm update is no
longer verifiable offline afterwards (`Offline data incomplete`). -/
theorem C10_warm_cache_clobbers_secret :
    (warmCacheLiteral svA).secretKey = some none
    ∧ jsRead (syncLiteral syncA).secretKey = some keyK
    ∧ storeStudentData cacheActive (warmCacheLiteral svA) idA
        = some (mergeSpread (syncLiteral syncA) (warmCacheLiteral svA))
    ∧ jsRead (mergeSpread (syncLiteral syncA) (warmCacheLiteral svA)).secretKey = none
    ∧ validateQROffline macA cacheActive 5 (generateQRPayload macA idA 5 keyK)
        = ⟨true, true, none⟩
    ∧ validateQROffline macA (storeStudentData cacheActive (warmCacheLiteral svA)) 5
        (generateQRPayload macA idA 5 keyK)
        = ⟨false, false, some msgOffIncomplete⟩ := by
  refine ⟨rfl, rfl, by decide, rfl, by decide, by decide⟩

end NSEMS
